import Mathlib

/-!
Shallow embedding of the candidate-roster admin view
(src/frontend/app/routes/admin.candidates.jsx).

The component's React state hooks become fields of `ComponentState`; each
event handler becomes a pure function from the pre-state (plus the network
environment it would observe) to the post-state together with a record of
its observable effects (whether the network call was issued, how many
candidate-list refreshes were triggered, and — for duplicate resolution —
the decisions array submitted to the server).
-/

/-- An assigned test, `{id, name}`, as rendered in the table. -/
structure AssignedTest where
  id : Nat
  name : String
deriving DecidableEq, Repr

/-- A candidate row as returned by `GET /candidates/`. -/
structure Candidate where
  id : Nat
  name : String
  email : String
  tags : Option String
  testsAssigned : List AssignedTest
  completed : Bool
deriving DecidableEq, Repr

/-- The `new` payload of a duplicate row: the incoming spreadsheet row. -/
structure NewCandidate where
  name : String
  email : String
  tags : Option String
deriving DecidableEq, Repr

/-- One existing candidate record matched by an incoming row. -/
structure ExistingCandidate where
  id : Nat
  name : String
  email : String
  tags : Option String
deriving DecidableEq, Repr

/-- One entry of the upload response's `duplicates` array:
the incoming row paired with its existing matches. -/
structure DuplicateCandidate where
  new : NewCandidate
  existing : List ExistingCandidate
deriving DecidableEq, Repr

/-- A per-row user decision as stored in the `duplicateDecisions` object:
`{action: 'update', existing_id}` or `{action: 'skip'}` (no id). -/
structure Decision where
  action : String
  existing_id : Option Nat
deriving DecidableEq, Repr

/-- One entry of the decisions array submitted to
`POST /candidates/resolve-duplicates`: `{new, action, existing_id}`. -/
structure ResolutionEntry where
  new : NewCandidate
  action : String
  existing_id : Option Nat
deriving DecidableEq, Repr

/-- The status banner value: `{type: 'success'|'error', message}`. -/
structure UploadStatus where
  type : String
  message : String
deriving DecidableEq, Repr

/-- The `duplicateDecisions` object, keyed by duplicate-row index;
an index absent from the object maps to `none`. -/
def DecisionMap : Type := Nat → Option Decision

/-- The empty decisions object `{}`. -/
def noDecisions : DecisionMap := fun _ => none

/-- The component's React state: one field per `useState` hook. -/
structure ComponentState where
  candidates : List Candidate
  loading : Bool
  error : Option String
  uploadStatus : Option UploadStatus
  isUploading : Bool
  showDuplicateModal : Bool
  duplicateData : Option (List DuplicateCandidate)
  duplicateDecisions : DecisionMap

/-- The initial state given by the `useState` initializers. -/
def initialState : ComponentState :=
  { candidates := []
    loading := true
    error := none
    uploadStatus := none
    isUploading := false
    showDuplicateModal := false
    duplicateData := none
    duplicateDecisions := noDecisions }

/-- A selected file; only its name is inspected by the view. -/
structure File where
  name : String
deriving DecidableEq, Repr

/-- Parsed JSON body of the `POST /candidates/upload` response:
`{success, errors, duplicates?}` on success, `{error}` on failure. -/
structure UploadBody where
  success : List Candidate
  errors : List String
  duplicates : Option (List DuplicateCandidate)
  error : Option String
deriving DecidableEq, Repr

/-- The upload HTTP response as observed by the handler: the
`content-type` header (`none` when absent), `response.ok`, and the body. -/
structure UploadResponse where
  contentType : Option String
  ok : Bool
  body : UploadBody
deriving DecidableEq, Repr

/-- Parsed JSON body of the `POST /candidates/resolve-duplicates`
response: `{success, errors}` on success, `{error}` on failure. -/
structure ResolveBody where
  success : List Candidate
  errors : List String
  error : Option String
deriving DecidableEq, Repr

/-- The resolve HTTP response as observed by the handler. -/
structure ResolveResponse where
  ok : Bool
  body : ResolveBody
deriving DecidableEq, Repr

/-- Effects of one `handleFileUpload` invocation: whether the upload
request was issued, and how many times `refreshCandidates` ran. -/
structure UploadEffects where
  networkCalled : Bool
  refreshCount : Nat
deriving DecidableEq, Repr

/-- Effects of one `handleDuplicateResolution` invocation: the decisions
array posted to the server (`none` when no request was issued), and how
many times `refreshCandidates` ran. -/
structure ResolveEffects where
  submitted : Option (List ResolutionEntry)
  refreshCount : Nat
deriving DecidableEq, Repr

/-- JavaScript `a || b` restricted to strings: the empty string is falsy. -/
def jsOr (a b : String) : String := if a = "" then b else a

/-- Ends-with over char lists. -/
def charsEndWith (pat s : List Char) : Bool :=
  List.isPrefixOf pat.reverse s.reverse

/-- The file-name validation `file.name.match(/\.(csv|xlsx|xls)$/)`:
a match exists exactly when the name ends with one of the three
(lower-case) extensions. The regex carries no `i` flag. -/
def validFileName (name : String) : Bool :=
  charsEndWith ".csv".data name.data || charsEndWith ".xlsx".data name.data ||
    charsEndWith ".xls".data name.data

/-- JavaScript `String.prototype.includes` over char lists: `pat` occurs
as a contiguous run of `s`. -/
def charsInclude (pat : List Char) : List Char → Bool
  | [] => pat.isEmpty
  | c :: rest => List.isPrefixOf pat (c :: rest) || charsInclude pat rest

/-- The guard `!contentType || !contentType.includes('application/json')`,
negated: the header is present and contains `application/json`. -/
def contentTypeIsJson : Option String → Bool
  | none => false
  | some c => charsInclude "application/json".data c.data

/-- The condition `result.duplicates && result.duplicates.length > 0`. -/
def duplicatesPresent (b : UploadBody) : Bool :=
  match b.duplicates with
  | some d => decide (0 < d.length)
  | none => false

/-- The success banner text of `handleFileUpload`. -/
def uploadSuccessMessage (nSuccess nErrors : Nat) : String :=
  "Successfully added " ++ toString nSuccess ++ " candidates. " ++
    toString nErrors ++ " errors."

/-- The success banner text of `handleDuplicateResolution`. -/
def resolveSuccessMessage (nSuccess nErrors : Nat) : String :=
  "Successfully processed " ++ toString nSuccess ++ " candidates. " ++
    toString nErrors ++ " errors."

/-- `fetchCandidates` (the mount-time load, lines 18-36): on success the
list and a cleared error are stored; on any fetch or parse failure the
error message is stored and the list is emptied. `loading` ends false
either way (the `finally` block). The environment value is the outcome
the network delivers. -/
def fetchCandidates (s : ComponentState) (env : Except String (List Candidate)) :
    ComponentState :=
  match env with
  | .ok data => { s with loading := false, candidates := data, error := none }
  | .error msg => { s with loading := false, error := some msg, candidates := [] }

/-- `refreshCandidates` (lines 38-46): on success the list is replaced;
on failure the error is only logged to the console and the state is left
untouched. -/
def refreshCandidates (s : ComponentState) (env : Except String (List Candidate)) :
    ComponentState :=
  match env with
  | .ok data => { s with candidates := data }
  | .error _ => s

/-- The synchronous prefix of `handleFileUpload` (lines 52-56), i.e. the
state visible while the upload request is outstanding: status cleared,
`isUploading` set, duplicate data and decisions reset. -/
def uploadPendingState (s : ComponentState) : ComponentState :=
  { s with uploadStatus := none
           isUploading := true
           duplicateData := none
           duplicateDecisions := noDecisions }

/-- The `catch` block of `handleFileUpload` (lines 97-101) followed by
its `finally` (line 103): error banner from the thrown message with a
fallback for an empty one, `isUploading` cleared. -/
def uploadCatch (s : ComponentState) (m : String) : ComponentState :=
  { s with uploadStatus :=
             some ⟨"error", jsOr m "Failed to upload file. Please try again."⟩
           isUploading := false }

/-- `handleFileUpload` (lines 48-107) as a state transformer. `files` is
the event target's file list; `net` is what the `api.uploadFile` call
would deliver (`.error` for a transport or JSON-parse failure, `.ok` for
a received response); `refreshEnv` feeds the `refreshCandidates` call of
the success path. -/
def handleFileUpload (s : ComponentState) (files : List File)
    (net : Except String UploadResponse)
    (refreshEnv : Except String (List Candidate)) :
    ComponentState × UploadEffects :=
  match files.head? with
  | none => (s, ⟨false, 0⟩)
  | some file =>
    let s1 := uploadPendingState s
    if validFileName file.name = false then
      ({ s1 with uploadStatus := some ⟨"error", "Please upload a CSV or Excel file"⟩
                 isUploading := false }, ⟨false, 0⟩)
    else
      match net with
      | .error m => (uploadCatch s1 m, ⟨true, 0⟩)
      | .ok resp =>
        if contentTypeIsJson resp.contentType = false then
          (uploadCatch s1 "Server returned non-JSON response", ⟨true, 0⟩)
        else if resp.ok = false then
          (uploadCatch s1 (jsOr (resp.body.error.getD "") "Upload failed"), ⟨true, 0⟩)
        else if duplicatesPresent resp.body then
          ({ s1 with duplicateData := resp.body.duplicates
                     showDuplicateModal := true
                     isUploading := false }, ⟨true, 0⟩)
        else
          (refreshCandidates
            { s1 with uploadStatus :=
                        some ⟨"success",
                              uploadSuccessMessage resp.body.success.length
                                resp.body.errors.length⟩
                      isUploading := false } refreshEnv,
           ⟨true, 1⟩)

/-- The callback body of `duplicateData.map((item, index) => ...)`
(lines 114-121): look the index up in the decisions object, default to
`{action: 'skip'}`, and emit `{new, action, existing_id}`. -/
def mkEntry (dd : DecisionMap) (i : Nat) (item : DuplicateCandidate) :
    ResolutionEntry :=
  let decision := (dd i).getD ⟨"skip", none⟩
  ⟨item.new, decision.action, decision.existing_id⟩

/-- Helper for `buildDecisions` carrying the running index of the map. -/
def buildDecisionsAux (dd : DecisionMap) (k : Nat) :
    List DuplicateCandidate → List ResolutionEntry
  | [] => []
  | item :: rest => mkEntry dd k item :: buildDecisionsAux dd (k + 1) rest

/-- The decisions array built at submission time:
`duplicateData.map((item, index) => ...)` over the duplicates in order. -/
def buildDecisions (dups : List DuplicateCandidate) (dd : DecisionMap) :
    List ResolutionEntry :=
  buildDecisionsAux dd 0 dups

/-- The synchronous prefix of `handleDuplicateResolution` before its
`await api.post`: the handler updates no state before the request, so
the state visible while the resolve request is outstanding is the
pre-state itself. -/
def resolvePendingState (s : ComponentState) : ComponentState := s

/-- The `catch` block of `handleDuplicateResolution` (lines 140-145):
only the status banner changes. -/
def resolveCatch (s : ComponentState) (m : String) : ComponentState :=
  { s with uploadStatus :=
             some ⟨"error", jsOr m "Failed to resolve duplicates. Please try again."⟩ }

/-- `handleDuplicateResolution` (lines 109-146) as a state transformer.
`net` is what the `api.post` call would deliver; `refreshEnv` feeds the
`refreshCandidates` call of the success path. -/
def handleDuplicateResolution (s : ComponentState)
    (net : Except String ResolveResponse)
    (refreshEnv : Except String (List Candidate)) :
    ComponentState × ResolveEffects :=
  match s.duplicateData with
  | none => (s, ⟨none, 0⟩)
  | some dups =>
    let s1 := resolvePendingState s
    let decisions := buildDecisions dups s1.duplicateDecisions
    match net with
    | .error m => (resolveCatch s1 m, ⟨some decisions, 0⟩)
    | .ok resp =>
      if resp.ok = false then
        (resolveCatch s1 (jsOr (resp.body.error.getD "") "Failed to resolve duplicates"),
         ⟨some decisions, 0⟩)
      else
        (refreshCandidates
          { s1 with uploadStatus :=
                      some ⟨"success",
                            resolveSuccessMessage resp.body.success.length
                              resp.body.errors.length⟩
                    showDuplicateModal := false
                    duplicateData := none
                    duplicateDecisions := noDecisions } refreshEnv,
         ⟨some decisions, 1⟩)

/-- The cancel actions of the duplicate dialog (the corner button,
lines 222-226, and the Cancel button, lines 342-346): close the modal,
null the duplicate data, empty the decisions object. -/
def cancelDialog (s : ComponentState) : ComponentState :=
  { s with showDuplicateModal := false
           duplicateData := none
           duplicateDecisions := noDecisions }

/-- Which top-level view the component renders (lines 149-178):
the loading placeholder, the full-screen error state, or the main view. -/
inductive ViewKind where
  | loadingView : ViewKind
  | errorView : String → ViewKind
  | mainView : ViewKind
deriving DecidableEq, Repr

/-- The component's top-level render branch: `if (loading)` first, then
`if (error)`, then the main view. The error check is JavaScript
truthiness, so both a null error and an empty-string error fall through
to the main view. -/
def renderKind (s : ComponentState) : ViewKind :=
  if s.loading then .loadingView
  else
    match s.error with
    | some m => if m = "" then .mainView else .errorView m
    | none => .mainView

/-- Whether the rendered view offers the full-reload Retry control
(lines 167-172): it exists exactly in the error branch. -/
def offersReload (s : ComponentState) : Bool :=
  match renderKind s with
  | .errorView _ => true
  | _ => false

/-- The `disabled` attribute of the file-input control (line 190). -/
def uploadInputDisabled (s : ComponentState) : Bool := s.isUploading

/-- The text of the upload label (line 198). -/
def uploadControlLabel (s : ComponentState) : String :=
  if s.isUploading then "Uploading..." else "Upload Candidates"

/-- The `disabled` attribute of the Process Selected Actions button
(lines 351-356): the element carries no `disabled` attribute and no
state tracks an in-flight resolution, so it is constantly false. -/
def resolveButtonDisabled (_ : ComponentState) : Bool := false

/-! Concrete sample data used by witnesses and counterexamples. -/

/-- A sample existing match. -/
def sampleExisting1 : ExistingCandidate :=
  ⟨1, "Alice", "alice@example.com", some "frontend developer; javascript"⟩

/-- A second sample existing match. -/
def sampleExisting2 : ExistingCandidate :=
  ⟨2, "Alicia", "alice@example.com", none⟩

/-- A duplicate row with two existing matches. -/
def sampleDup1 : DuplicateCandidate :=
  ⟨⟨"Alice", "alice@example.com", some "frontend developer; javascript"⟩,
   [sampleExisting1, sampleExisting2]⟩

/-- A duplicate row with one existing match. -/
def sampleDup2 : DuplicateCandidate :=
  ⟨⟨"Bob", "bob@example.com", none⟩, [sampleExisting2]⟩

/-- A sample duplicates array of length two. -/
def sampleDups : List DuplicateCandidate := [sampleDup1, sampleDup2]

/-- A partial decisions object: row 0 decided, row 1 untouched. -/
def sampleDecisions : DecisionMap :=
  fun i => if i = 0 then some ⟨"update", some 2⟩ else none

/-- The state while the resolution dialog is open over `sampleDups`. -/
def sampleDialogState : ComponentState :=
  { initialState with
      loading := false
      showDuplicateModal := true
      duplicateData := some sampleDups
      duplicateDecisions := sampleDecisions }

/-- A successful resolve response with empty result lists. -/
def netResolveOk : Except String ResolveResponse :=
  .ok ⟨true, ⟨[], [], none⟩⟩

/-- A successful upload response with no duplicates. -/
def respOkNoDups : UploadResponse :=
  ⟨some "application/json", true, ⟨[], [], none, none⟩⟩

/-- A successful upload response whose body reports `sampleDups`. -/
def respOkDups : UploadResponse :=
  ⟨some "application/json", true, ⟨[], [], some sampleDups, none⟩⟩

/-- The environment delivering `respOkNoDups`. -/
def netUploadOk : Except String UploadResponse := .ok respOkNoDups

/-- An upload response with an HTML content-type and HTTP 200. -/
def respHtml : UploadResponse :=
  ⟨some "text/html", true, ⟨[], [], none, none⟩⟩

/-- A refresh environment delivering an empty list. -/
def renvOk : Except String (List Candidate) := .ok []

/-! Lemmas about the decisions array built at submission time. -/

/-- `buildDecisionsAux` preserves length. -/
theorem buildDecisionsAux_length (dd : DecisionMap) (k : Nat)
    (l : List DuplicateCandidate) :
    (buildDecisionsAux dd k l).length = l.length := by
  induction l generalizing k with
  | nil => rfl
  | cons a t ih => simp [buildDecisionsAux, ih]

/-- Indexing into `buildDecisionsAux`: the entry at position `i` is built
from the duplicate at position `i` with map key `k + i`. -/
theorem buildDecisionsAux_get (dd : DecisionMap) (k : Nat)
    (l : List DuplicateCandidate) (i : Nat) :
    (buildDecisionsAux dd k l).get? i
      = (l.get? i).map (fun item => mkEntry dd (k + i) item) := by
  induction l generalizing k i with
  | nil => cases i <;> rfl
  | cons a t ih =>
    cases i with
    | zero => rfl
    | succ j =>
      have h := ih (k + 1) j
      simp only [buildDecisionsAux, List.get?_cons_succ, h]
      have hk : k + 1 + j = k + (j + 1) := by omega
      rw [hk]

/-- `buildDecisions` preserves length. -/
theorem buildDecisions_length (dups : List DuplicateCandidate) (dd : DecisionMap) :
    (buildDecisions dups dd).length = dups.length :=
  buildDecisionsAux_length dd 0 dups

/-- Indexing into `buildDecisions`. -/
theorem buildDecisions_get (dups : List DuplicateCandidate) (dd : DecisionMap)
    (i : Nat) :
    (buildDecisions dups dd).get? i = (dups.get? i).map (fun item => mkEntry dd i item) := by
  have h := buildDecisionsAux_get dd 0 dups i
  simpa [buildDecisions] using h

/-- Whatever the network delivers, `handleDuplicateResolution` on a state
holding a duplicates array submits exactly the array built by
`buildDecisions` from that state's decisions object. -/
theorem handleDuplicateResolution_submitted (s : ComponentState)
    (dups : List DuplicateCandidate) (hd : s.duplicateData = some dups)
    (net : Except String ResolveResponse) (renv : Except String (List Candidate)) :
    (handleDuplicateResolution s net renv).2.submitted
      = some (buildDecisions dups s.duplicateDecisions) := by
  unfold handleDuplicateResolution
  rw [hd]
  cases net with
  | error m => rfl
  | ok resp =>
    dsimp only
    split <;> rfl

/-- Claim C1: for every duplicates array held in the state and every
(possibly empty or only partly filled) decisions object,
`handleDuplicateResolution` submits a decisions array whose length equals
the duplicates array's length, in the same order, the entry at each index
carrying the `new` payload of the duplicate row at that index. -/
theorem c1_resolution_preserves_length_and_order (s : ComponentState)
    (dups : List DuplicateCandidate) (hd : s.duplicateData = some dups)
    (net : Except String ResolveResponse) (renv : Except String (List Candidate)) :
    ∃ ds, (handleDuplicateResolution s net renv).2.submitted = some ds ∧
      ds.length = dups.length ∧
      ∀ i, (ds.get? i).map ResolutionEntry.new
            = (dups.get? i).map DuplicateCandidate.new := by
  refine ⟨buildDecisions dups s.duplicateDecisions,
    handleDuplicateResolution_submitted s dups hd net renv,
    buildDecisions_length dups s.duplicateDecisions, ?_⟩
  intro i
  rw [buildDecisions_get]
  cases dups.get? i <;> rfl

/-- Witness for C1 at the sample dialog state. -/
theorem c1_resolution_preserves_length_and_order_witness :
    ∃ ds, (handleDuplicateResolution sampleDialogState netResolveOk renvOk).2.submitted
            = some ds ∧
      ds.length = sampleDups.length ∧
      ∀ i, (ds.get? i).map ResolutionEntry.new
            = (sampleDups.get? i).map DuplicateCandidate.new :=
  c1_resolution_preserves_length_and_order sampleDialogState sampleDups rfl
    netResolveOk renvOk

/-- Claim C2: a duplicate-row index for which the decisions object holds
no entry is submitted as `{new, action: 'skip'}` with no existing id. -/
theorem c2_unset_rows_default_to_skip (s : ComponentState)
    (dups : List DuplicateCandidate) (hd : s.duplicateData = some dups)
    (net : Except String ResolveResponse) (renv : Except String (List Candidate))
    (i : Nat) (hi : s.duplicateDecisions i = none) :
    ∃ ds, (handleDuplicateResolution s net renv).2.submitted = some ds ∧
      ds.get? i = (dups.get? i).map
        (fun item => ResolutionEntry.mk item.new "skip" none) := by
  refine ⟨buildDecisions dups s.duplicateDecisions,
    handleDuplicateResolution_submitted s dups hd net renv, ?_⟩
  rw [buildDecisions_get]
  cases dups.get? i with
  | none => rfl
  | some item => simp [mkEntry, hi]

/-- Witness for C2: row index 1 of the sample state carries no decision
and is submitted as a skip. -/
theorem c2_unset_rows_default_to_skip_witness :
    ∃ ds, (handleDuplicateResolution sampleDialogState netResolveOk renvOk).2.submitted
            = some ds ∧
      ds.get? 1 = (sampleDups.get? 1).map
        (fun item => ResolutionEntry.mk item.new "skip" none) :=
  c2_unset_rows_default_to_skip sampleDialogState sampleDups rfl
    netResolveOk renvOk 1 rfl

/-- Claim C10: invoking `handleFileUpload` with an empty file list is a
complete no-op: the state is returned unchanged, no network call is made
and no refresh is triggered. -/
theorem c10_no_file_selected_noop (s : ComponentState)
    (net : Except String UploadResponse) (renv : Except String (List Candidate)) :
    handleFileUpload s [] net renv = (s, ⟨false, 0⟩) := rfl

/-- The upload request is issued exactly when the file name passes the
extension gate. -/
theorem handleFileUpload_networkCalled (s : ComponentState) (f : File)
    (net : Except String UploadResponse) (renv : Except String (List Candidate)) :
    (handleFileUpload s [f] net renv).2.networkCalled = validFileName f.name := by
  unfold handleFileUpload
  simp only [List.head?_cons]
  cases hv : validFileName f.name with
  | false => simp
  | true =>
    cases net with
    | error m => rfl
    | ok resp =>
      simp only [Bool.true_eq_false, if_false]
      split
      · rfl
      · split
        · rfl
        · split <;> rfl

/-- Claim C3 counterexample: the file `roster.CSV` carries an accepted
extension in upper case, yet no network call is made and the validation
message is shown, because the regex `/\.(csv|xlsx|xls)$/` carries no `i`
flag and matches case-sensitively. -/
theorem c3_uppercase_extension_counterexample :
    (handleFileUpload initialState [⟨"roster.CSV"⟩] netUploadOk renvOk).2.networkCalled
      = false ∧
    (handleFileUpload initialState [⟨"roster.CSV"⟩] netUploadOk renvOk).1.uploadStatus
      = some ⟨"error", "Please upload a CSV or Excel file"⟩ := by
  constructor <;> decide

/-- Claim C3 (amended): for every selected file whose name ends in
`.csv`, `.xlsx`, or `.xls` in lower case exactly, `handleFileUpload`
proceeds to the network call; for any other file name — including the
same extensions in any other letter case — no network call is made and
the user-visible validation message is shown instead. -/
theorem c3_extension_gate_case_sensitive (s : ComponentState) (f : File)
    (net : Except String UploadResponse) (renv : Except String (List Candidate)) :
    (validFileName f.name = true →
      (handleFileUpload s [f] net renv).2.networkCalled = true) ∧
    (validFileName f.name = false →
      (handleFileUpload s [f] net renv).2.networkCalled = false ∧
      (handleFileUpload s [f] net renv).1.uploadStatus
        = some ⟨"error", "Please upload a CSV or Excel file"⟩) := by
  constructor
  · intro hv
    rw [handleFileUpload_networkCalled, hv]
  · intro hv
    refine ⟨by rw [handleFileUpload_networkCalled, hv], ?_⟩
    unfold handleFileUpload
    simp [hv]

/-- Witness for C3 (amended) at `roster.csv` and `roster.txt`. -/
theorem c3_extension_gate_case_sensitive_witness :
    (handleFileUpload initialState [⟨"roster.csv"⟩] netUploadOk renvOk).2.networkCalled
      = true ∧
    (handleFileUpload initialState [⟨"roster.txt"⟩] netUploadOk renvOk).2.networkCalled
      = false ∧
    (handleFileUpload initialState [⟨"roster.txt"⟩] netUploadOk renvOk).1.uploadStatus
      = some ⟨"error", "Please upload a CSV or Excel file"⟩ :=
  ⟨(c3_extension_gate_case_sensitive initialState ⟨"roster.csv"⟩ netUploadOk renvOk).1
      (by decide),
   ((c3_extension_gate_case_sensitive initialState ⟨"roster.txt"⟩ netUploadOk renvOk).2
      (by decide)).1,
   ((c3_extension_gate_case_sensitive initialState ⟨"roster.txt"⟩ netUploadOk renvOk).2
      (by decide)).2⟩

/-- On a validated file and a JSON response with a success status,
`handleFileUpload` reduces to the duplicates-vs-success dispatch. -/
theorem handleFileUpload_valid_ok (s : ComponentState) (f : File)
    (resp : UploadResponse) (renv : Except String (List Candidate))
    (hv : validFileName f.name = true)
    (hct : contentTypeIsJson resp.contentType = true)
    (hok : resp.ok = true) :
    handleFileUpload s [f] (.ok resp) renv =
      if duplicatesPresent resp.body then
        ({ uploadPendingState s with
             duplicateData := resp.body.duplicates
             showDuplicateModal := true
             isUploading := false }, ⟨true, 0⟩)
      else
        (refreshCandidates
          { uploadPendingState s with
              uploadStatus :=
                some ⟨"success",
                      uploadSuccessMessage resp.body.success.length
                        resp.body.errors.length⟩
              isUploading := false } renv, ⟨true, 1⟩) := by
  unfold handleFileUpload
  simp [hv, hct, hok]

/-- Claim C4: for a successful upload response, a non-empty duplicates
array opens the dialog holding exactly that array with no refresh, while
an empty or absent duplicates array shows the success counts, triggers
exactly one refresh and never opens the dialog. -/
theorem c4_upload_response_dispatch (s : ComponentState) (f : File)
    (resp : UploadResponse) (renv : Except String (List Candidate))
    (hv : validFileName f.name = true)
    (hct : contentTypeIsJson resp.contentType = true)
    (hok : resp.ok = true) :
    (∀ dups, resp.body.duplicates = some dups → dups ≠ [] →
      (handleFileUpload s [f] (.ok resp) renv).1.duplicateData = some dups ∧
      (handleFileUpload s [f] (.ok resp) renv).1.showDuplicateModal = true ∧
      (handleFileUpload s [f] (.ok resp) renv).2.refreshCount = 0) ∧
    (duplicatesPresent resp.body = false →
      (handleFileUpload s [f] (.ok resp) renv).1.uploadStatus
        = some ⟨"success",
                uploadSuccessMessage resp.body.success.length
                  resp.body.errors.length⟩ ∧
      (handleFileUpload s [f] (.ok resp) renv).1.showDuplicateModal
        = s.showDuplicateModal ∧
      (handleFileUpload s [f] (.ok resp) renv).2.refreshCount = 1) := by
  rw [handleFileUpload_valid_ok s f resp renv hv hct hok]
  constructor
  · intro dups hdup hne
    have hp : duplicatesPresent resp.body = true := by
      simp [duplicatesPresent, hdup, List.length_pos, hne]
    simp [hp, hdup, uploadPendingState]
  · intro hp
    simp only [hp, if_false, Bool.false_eq_true]
    cases renv <;> simp [refreshCandidates, uploadPendingState]

/-- Witness for C4: the duplicates branch at `respOkDups` and the
no-duplicates branch at `respOkNoDups`. -/
theorem c4_upload_response_dispatch_witness :
    ((handleFileUpload initialState [⟨"roster.csv"⟩] (.ok respOkDups) renvOk).1.duplicateData
        = some sampleDups ∧
      (handleFileUpload initialState [⟨"roster.csv"⟩] (.ok respOkDups) renvOk).1.showDuplicateModal
        = true ∧
      (handleFileUpload initialState [⟨"roster.csv"⟩] (.ok respOkDups) renvOk).2.refreshCount
        = 0) ∧
    ((handleFileUpload initialState [⟨"roster.csv"⟩] (.ok respOkNoDups) renvOk).1.uploadStatus
        = some ⟨"success",
                uploadSuccessMessage respOkNoDups.body.success.length
                  respOkNoDups.body.errors.length⟩ ∧
      (handleFileUpload initialState [⟨"roster.csv"⟩] (.ok respOkNoDups) renvOk).1.showDuplicateModal
        = initialState.showDuplicateModal ∧
      (handleFileUpload initialState [⟨"roster.csv"⟩] (.ok respOkNoDups) renvOk).2.refreshCount
        = 1) :=
  ⟨(c4_upload_response_dispatch initialState ⟨"roster.csv"⟩ respOkDups renvOk
      (by decide) (by decide) rfl).1 sampleDups rfl (by decide),
   (c4_upload_response_dispatch initialState ⟨"roster.csv"⟩ respOkNoDups renvOk
      (by decide) (by decide) rfl).2 rfl⟩

/-- Claim C5: a response whose content-type header is missing or lacks
`application/json` makes `handleFileUpload` fail with the message
`Server returned non-JSON response` regardless of the HTTP status,
opening no dialog and triggering no refresh. -/
theorem c5_non_json_response_is_failure (s : ComponentState) (f : File)
    (resp : UploadResponse) (renv : Except String (List Candidate))
    (hv : validFileName f.name = true)
    (hct : contentTypeIsJson resp.contentType = false) :
    (handleFileUpload s [f] (.ok resp) renv).1.uploadStatus
      = some ⟨"error", "Server returned non-JSON response"⟩ ∧
    (handleFileUpload s [f] (.ok resp) renv).1.showDuplicateModal
      = s.showDuplicateModal ∧
    (handleFileUpload s [f] (.ok resp) renv).2.refreshCount = 0 := by
  unfold handleFileUpload
  simp [hv, hct, uploadCatch, uploadPendingState, jsOr]

/-- Witness for C5: an HTML response with HTTP status 200. -/
theorem c5_non_json_response_is_failure_witness :
    (handleFileUpload initialState [⟨"roster.csv"⟩] (.ok respHtml) renvOk).1.uploadStatus
      = some ⟨"error", "Server returned non-JSON response"⟩ ∧
    (handleFileUpload initialState [⟨"roster.csv"⟩] (.ok respHtml) renvOk).1.showDuplicateModal
      = initialState.showDuplicateModal ∧
    (handleFileUpload initialState [⟨"roster.csv"⟩] (.ok respHtml) renvOk).2.refreshCount = 0 :=
  c5_non_json_response_is_failure initialState ⟨"roster.csv"⟩ respHtml renvOk
    (by decide) (by decide)

/-- A successful resolve response body. -/
def respResolveOk : ResolveResponse := ⟨true, ⟨[], [], none⟩⟩

/-- A failed resolve response carrying a server `error` string. -/
def respResolveErrMsg : ResolveResponse :=
  ⟨false, ⟨[], [], some "Invalid decisions payload"⟩⟩

/-- A failed resolve response without an `error` string. -/
def respResolveErrNone : ResolveResponse := ⟨false, ⟨[], [], none⟩⟩

/-- On a state holding a duplicates array, `handleDuplicateResolution`
reduces to its three-way outcome dispatch. -/
theorem handleDuplicateResolution_eq (s : ComponentState)
    (dups : List DuplicateCandidate) (hd : s.duplicateData = some dups)
    (net : Except String ResolveResponse) (renv : Except String (List Candidate)) :
    handleDuplicateResolution s net renv =
      match net with
      | .error m =>
        (resolveCatch s m, ⟨some (buildDecisions dups s.duplicateDecisions), 0⟩)
      | .ok resp =>
        if resp.ok = false then
          (resolveCatch s (jsOr (resp.body.error.getD "") "Failed to resolve duplicates"),
           ⟨some (buildDecisions dups s.duplicateDecisions), 0⟩)
        else
          (refreshCandidates
            { s with uploadStatus :=
                       some ⟨"success",
                             resolveSuccessMessage resp.body.success.length
                               resp.body.errors.length⟩
                     showDuplicateModal := false
                     duplicateData := none
                     duplicateDecisions := noDecisions } renv,
           ⟨some (buildDecisions dups s.duplicateDecisions), 1⟩) := by
  unfold handleDuplicateResolution
  rw [hd]
  rfl

/-- Claim C6: on a successful response `handleDuplicateResolution` shows
the success counts, closes the dialog, clears the duplicate data and all
decisions, and triggers one refresh; on any failure — a network error
with any message (the fixed fallback standing in for an empty one), or a
non-ok status with the server's `error` string shown when present and
non-empty and the fixed fallback otherwise — it shows the error banner
and leaves the modal flag, duplicate data and decisions unchanged with
no refresh. -/
theorem c6_resolution_success_and_failure (s : ComponentState)
    (dups : List DuplicateCandidate) (hd : s.duplicateData = some dups)
    (renv : Except String (List Candidate)) :
    (∀ resp : ResolveResponse, resp.ok = true →
      (handleDuplicateResolution s (.ok resp) renv).1.uploadStatus
        = some ⟨"success",
                resolveSuccessMessage resp.body.success.length
                  resp.body.errors.length⟩ ∧
      (handleDuplicateResolution s (.ok resp) renv).1.showDuplicateModal = false ∧
      (handleDuplicateResolution s (.ok resp) renv).1.duplicateData = none ∧
      (handleDuplicateResolution s (.ok resp) renv).1.duplicateDecisions = noDecisions ∧
      (handleDuplicateResolution s (.ok resp) renv).2.refreshCount = 1) ∧
    (∀ m : String, m ≠ "" →
      (handleDuplicateResolution s (.error m) renv).1.uploadStatus
        = some ⟨"error", m⟩ ∧
      (handleDuplicateResolution s (.error m) renv).1.showDuplicateModal
        = s.showDuplicateModal ∧
      (handleDuplicateResolution s (.error m) renv).1.duplicateData = s.duplicateData ∧
      (handleDuplicateResolution s (.error m) renv).1.duplicateDecisions
        = s.duplicateDecisions ∧
      (handleDuplicateResolution s (.error m) renv).2.refreshCount = 0) ∧
    ((handleDuplicateResolution s (.error "") renv).1.uploadStatus
        = some ⟨"error", "Failed to resolve duplicates. Please try again."⟩ ∧
      (handleDuplicateResolution s (.error "") renv).1.showDuplicateModal
        = s.showDuplicateModal ∧
      (handleDuplicateResolution s (.error "") renv).1.duplicateData = s.duplicateData ∧
      (handleDuplicateResolution s (.error "") renv).1.duplicateDecisions
        = s.duplicateDecisions ∧
      (handleDuplicateResolution s (.error "") renv).2.refreshCount = 0) ∧
    (∀ resp : ResolveResponse, ∀ e : String, resp.ok = false →
      resp.body.error = some e → e ≠ "" →
      (handleDuplicateResolution s (.ok resp) renv).1.uploadStatus
        = some ⟨"error", e⟩ ∧
      (handleDuplicateResolution s (.ok resp) renv).1.showDuplicateModal
        = s.showDuplicateModal ∧
      (handleDuplicateResolution s (.ok resp) renv).1.duplicateData = s.duplicateData ∧
      (handleDuplicateResolution s (.ok resp) renv).1.duplicateDecisions
        = s.duplicateDecisions ∧
      (handleDuplicateResolution s (.ok resp) renv).2.refreshCount = 0) ∧
    (∀ resp : ResolveResponse, resp.ok = false →
      resp.body.error = none ∨ resp.body.error = some "" →
      (handleDuplicateResolution s (.ok resp) renv).1.uploadStatus
        = some ⟨"error", "Failed to resolve duplicates"⟩ ∧
      (handleDuplicateResolution s (.ok resp) renv).1.showDuplicateModal
        = s.showDuplicateModal ∧
      (handleDuplicateResolution s (.ok resp) renv).1.duplicateData = s.duplicateData ∧
      (handleDuplicateResolution s (.ok resp) renv).1.duplicateDecisions
        = s.duplicateDecisions ∧
      (handleDuplicateResolution s (.ok resp) renv).2.refreshCount = 0) := by
  refine ⟨?_, ?_, ?_, ?_, ?_⟩
  · intro resp hok
    rw [handleDuplicateResolution_eq s dups hd]
    simp only [hok, Bool.true_eq_false, if_false]
    cases renv <;> simp [refreshCandidates]
  · intro m hm
    rw [handleDuplicateResolution_eq s dups hd]
    simp [resolveCatch, jsOr, hm]
  · rw [handleDuplicateResolution_eq s dups hd]
    simp [resolveCatch, jsOr]
  · intro resp e hnok herr hne
    rw [handleDuplicateResolution_eq s dups hd]
    simp [hnok, resolveCatch, herr, jsOr, hne]
  · intro resp hnok herr
    rcases herr with h | h <;>
      · rw [handleDuplicateResolution_eq s dups hd]
        simp [hnok, resolveCatch, h, jsOr]

/-- Witness for C6: all five outcomes at the sample dialog state. -/
theorem c6_resolution_success_and_failure_witness :
    ((handleDuplicateResolution sampleDialogState (.ok respResolveOk) renvOk).1.uploadStatus
        = some ⟨"success",
                resolveSuccessMessage respResolveOk.body.success.length
                  respResolveOk.body.errors.length⟩ ∧
      (handleDuplicateResolution sampleDialogState (.ok respResolveOk) renvOk).1.showDuplicateModal
        = false ∧
      (handleDuplicateResolution sampleDialogState (.ok respResolveOk) renvOk).1.duplicateData
        = none ∧
      (handleDuplicateResolution sampleDialogState (.ok respResolveOk) renvOk).1.duplicateDecisions
        = noDecisions ∧
      (handleDuplicateResolution sampleDialogState (.ok respResolveOk) renvOk).2.refreshCount
        = 1) ∧
    ((handleDuplicateResolution sampleDialogState (.error "Failed to fetch") renvOk).1.uploadStatus
        = some ⟨"error", "Failed to fetch"⟩ ∧
      (handleDuplicateResolution sampleDialogState (.error "Failed to fetch") renvOk).1.showDuplicateModal
        = sampleDialogState.showDuplicateModal ∧
      (handleDuplicateResolution sampleDialogState (.error "Failed to fetch") renvOk).1.duplicateData
        = sampleDialogState.duplicateData ∧
      (handleDuplicateResolution sampleDialogState (.error "Failed to fetch") renvOk).1.duplicateDecisions
        = sampleDialogState.duplicateDecisions ∧
      (handleDuplicateResolution sampleDialogState (.error "Failed to fetch") renvOk).2.refreshCount
        = 0) ∧
    ((handleDuplicateResolution sampleDialogState (.error "") renvOk).1.uploadStatus
        = some ⟨"error", "Failed to resolve duplicates. Please try again."⟩ ∧
      (handleDuplicateResolution sampleDialogState (.error "") renvOk).1.showDuplicateModal
        = sampleDialogState.showDuplicateModal ∧
      (handleDuplicateResolution sampleDialogState (.error "") renvOk).1.duplicateData
        = sampleDialogState.duplicateData ∧
      (handleDuplicateResolution sampleDialogState (.error "") renvOk).1.duplicateDecisions
        = sampleDialogState.duplicateDecisions ∧
      (handleDuplicateResolution sampleDialogState (.error "") renvOk).2.refreshCount
        = 0) ∧
    ((handleDuplicateResolution sampleDialogState (.ok respResolveErrMsg) renvOk).1.uploadStatus
        = some ⟨"error", "Invalid decisions payload"⟩ ∧
      (handleDuplicateResolution sampleDialogState (.ok respResolveErrMsg) renvOk).1.showDuplicateModal
        = sampleDialogState.showDuplicateModal ∧
      (handleDuplicateResolution sampleDialogState (.ok respResolveErrMsg) renvOk).1.duplicateData
        = sampleDialogState.duplicateData ∧
      (handleDuplicateResolution sampleDialogState (.ok respResolveErrMsg) renvOk).1.duplicateDecisions
        = sampleDialogState.duplicateDecisions ∧
      (handleDuplicateResolution sampleDialogState (.ok respResolveErrMsg) renvOk).2.refreshCount
        = 0) ∧
    ((handleDuplicateResolution sampleDialogState (.ok respResolveErrNone) renvOk).1.uploadStatus
        = some ⟨"error", "Failed to resolve duplicates"⟩ ∧
      (handleDuplicateResolution sampleDialogState (.ok respResolveErrNone) renvOk).1.showDuplicateModal
        = sampleDialogState.showDuplicateModal ∧
      (handleDuplicateResolution sampleDialogState (.ok respResolveErrNone) renvOk).1.duplicateData
        = sampleDialogState.duplicateData ∧
      (handleDuplicateResolution sampleDialogState (.ok respResolveErrNone) renvOk).1.duplicateDecisions
        = sampleDialogState.duplicateDecisions ∧
      (handleDuplicateResolution sampleDialogState (.ok respResolveErrNone) renvOk).2.refreshCount
        = 0) :=
  ⟨(c6_resolution_success_and_failure sampleDialogState sampleDups rfl renvOk).1
      respResolveOk rfl,
   (c6_resolution_success_and_failure sampleDialogState sampleDups rfl renvOk).2.1
      "Failed to fetch" (by decide),
   (c6_resolution_success_and_failure sampleDialogState sampleDups rfl renvOk).2.2.1,
   (c6_resolution_success_and_failure sampleDialogState sampleDups rfl renvOk).2.2.2.1
      respResolveErrMsg "Invalid decisions payload" rfl rfl (by decide),
   (c6_resolution_success_and_failure sampleDialogState sampleDups rfl renvOk).2.2.2.2
      respResolveErrNone rfl (Or.inl rfl)⟩

/-- Claim C7 counterexample: with the dialog open over the sample
duplicates and the resolve request outstanding (the handler updates no
state before its `await`, so the visible state is the pre-state itself),
the Process Selected Actions button is still not disabled, so a second
resolve submission is not prevented. -/
theorem c7_resolve_button_enabled_counterexample :
    sampleDialogState.showDuplicateModal = true ∧
    sampleDialogState.duplicateData = some sampleDups ∧
    resolveButtonDisabled (resolvePendingState sampleDialogState) = false :=
  ⟨rfl, rfl, rfl⟩

/-- Claim C7 (amended): the upload control is disabled and relabeled
`Uploading...` while an upload request is outstanding, and while the
initial load is outstanding only the loading placeholder is rendered, so
those two operations cannot be submitted twice concurrently; the resolve
button, however, carries no in-flight guard and is never disabled. -/
theorem c7_in_flight_control_state (s : ComponentState) :
    uploadInputDisabled (uploadPendingState s) = true ∧
    uploadControlLabel (uploadPendingState s) = "Uploading..." ∧
    renderKind initialState = ViewKind.loadingView ∧
    resolveButtonDisabled (resolvePendingState s) = false :=
  ⟨rfl, rfl, rfl, rfl⟩

/-- Claim C8 counterexample: a load failure whose message is the empty
string stores the error, yet the `if (error)` render check treats the
empty string as falsy, so the view stays in the main view and no reload
control is offered — the error state is not entered. -/
theorem c8_empty_message_counterexample :
    (fetchCandidates initialState (.error "")).error = some "" ∧
    renderKind (fetchCandidates initialState (.error "")) = ViewKind.mainView ∧
    offersReload (fetchCandidates initialState (.error "")) = false :=
  ⟨rfl, rfl, rfl⟩

/-- Claim C8 (amended): a failed initial load stores the failure message
and empties the candidate list; when the message is non-empty the view
renders the full-screen error state offering the reload action, while an
empty-string message (falsy under the `if (error)` check) leaves the
main view rendered with no reload control. A failed refresh leaves the
whole state untouched, so the previously displayed list stays and no
user-visible error appears. -/
theorem c8_load_error_vs_silent_refresh (s : ComponentState) (msg : String) :
    (fetchCandidates s (.error msg)).error = some msg ∧
    (fetchCandidates s (.error msg)).candidates = [] ∧
    (msg ≠ "" →
      renderKind (fetchCandidates s (.error msg)) = ViewKind.errorView msg ∧
      offersReload (fetchCandidates s (.error msg)) = true) ∧
    (msg = "" →
      renderKind (fetchCandidates s (.error msg)) = ViewKind.mainView ∧
      offersReload (fetchCandidates s (.error msg)) = false) ∧
    refreshCandidates s (.error msg) = s := by
  refine ⟨rfl, rfl, ?_, ?_, rfl⟩
  · intro hm
    constructor
    · simp [renderKind, fetchCandidates, hm]
    · simp [offersReload, renderKind, fetchCandidates, hm]
  · intro hm
    subst hm
    exact ⟨rfl, rfl⟩

/-- Witness for C8 (amended): a non-empty and an empty failure message. -/
theorem c8_load_error_vs_silent_refresh_witness :
    (renderKind (fetchCandidates initialState (.error "Failed to fetch"))
        = ViewKind.errorView "Failed to fetch" ∧
      offersReload (fetchCandidates initialState (.error "Failed to fetch")) = true) ∧
    (renderKind (fetchCandidates initialState (.error "")) = ViewKind.mainView ∧
      offersReload (fetchCandidates initialState (.error "")) = false) :=
  ⟨(c8_load_error_vs_silent_refresh initialState "Failed to fetch").2.2.1 (by decide),
   (c8_load_error_vs_silent_refresh initialState "").2.2.2.1 rfl⟩

/-- Claim C9: dismissing the dialog closes the modal, nulls the duplicate
data and empties the decisions object; and the synchronous prefix of
every `handleFileUpload` invocation with a selected file (the state it
installs before validating or calling the network) likewise resets the
duplicate data and decisions, so an upload starts from a clean slate. -/
theorem c9_cancel_and_new_upload_reset (s : ComponentState) :
    (cancelDialog s).showDuplicateModal = false ∧
    (cancelDialog s).duplicateData = none ∧
    (cancelDialog s).duplicateDecisions = noDecisions ∧
    (uploadPendingState s).duplicateData = none ∧
    (uploadPendingState s).duplicateDecisions = noDecisions :=
  ⟨rfl, rfl, rfl, rfl, rfl⟩
